import Mathlib

/-!
Shallow embedding of the car-expense tracker (`src/app.js`, class
`CarExpenseTracker`): the record store, the view-state reducer
(search / sort / pagination), the import/export bridge and the
localStorage persistence adapter.  DOM access, toasts and the debounce
timer are pure plumbing around these and are not part of the state
modelled here.
-/

namespace CarExpense

/-- One trip record, as built in `handleFormSubmit` / `handleUpload`.
`toll`, `fuel`, `total` are `Int` because they come out of JS `parseInt`,
which can produce negative values. `id` and `timestamp` abstract
`Date.now() + Math.random()` and `Date.now()` as opaque numbers. -/
structure Record where
  id : Nat
  date : String
  route : String
  startPoint : String
  endPoint : String
  toll : Int
  fuel : Int
  total : Int
  timestamp : Nat
deriving DecidableEq, Repr

/-- The mutable fields of `CarExpenseTracker` that the claims are about.
`recordsPerPage` is fixed at 20 in the constructor and never reassigned,
so it is a top-level constant rather than a field. -/
structure AppState where
  records : List Record
  filteredRecords : List Record
  totalCost : Int
  currentPage : Nat
deriving DecidableEq, Repr

/-- `this.recordsPerPage = 20` from the constructor. -/
def recordsPerPage : Nat := 20

/-- Constructor state: `records = []`, `filteredRecords = []`,
`totalCost = 0`, `currentPage = 1`. -/
def initialState : AppState :=
  { records := [], filteredRecords := [], totalCost := 0, currentPage := 1 }

/-- JS `parseInt(s)` on a decimal input: skip leading whitespace, read an
optional sign and then a maximal run of leading digits; `none` models the
`NaN` result when no digit is found. -/
def jsParseInt (s : String) : Option Int :=
  let cs := s.toList.dropWhile fun c => c = ' ' || c = '\t' || c = '\n' || c = '\r'
  let signAndRest : Int × List Char :=
    match cs with
    | '-' :: t => (-1, t)
    | '+' :: t => (1, t)
    | t => (1, t)
  let ds := signAndRest.2.takeWhile Char.isDigit
  if ds.isEmpty then none
  else some (signAndRest.1 * (ds.foldl (fun acc c => acc * 10 + (c.toNat - 48)) 0 : Nat))

/-- A spreadsheet cell as seen by `handleUpload`: absent, a string, or an
(integer) number. -/
inductive Cell where
  | missing
  | str (s : String)
  | num (n : Int)
deriving DecidableEq, Repr

/-- JS `parseInt(cell)`: `undefined` gives `NaN` (`none`); a number is
stringified and re-parsed, which is the identity on integers; a string
goes through `jsParseInt`. -/
def parseIntCell : Cell → Option Int
  | Cell.missing => none
  | Cell.num n => some n
  | Cell.str s => jsParseInt s

/-- JS `cell || default` on a column that is used as text: `undefined`,
`""` and `0` are falsy and fall back to the default; a non-zero number is
truthy and is carried through (rendered as its decimal string). -/
def cellOrDefault : Cell → String → String
  | Cell.missing, d => d
  | Cell.str s, d => if s = "" then d else s
  | Cell.num n, d => if n = 0 then d else toString n

/-- Does the first list start with the second? -/
def startsWithChars : List Char → List Char → Bool
  | _, [] => true
  | [], _ :: _ => false
  | c :: cs, d :: ds => c = d && startsWithChars cs ds

/-- Substring occurrence on character lists. -/
def containsChars : List Char → List Char → Bool
  | [], needle => needle.isEmpty
  | c :: rest, needle => startsWithChars (c :: rest) needle || containsChars rest needle

/-- JS `hay.includes(needle)` substring test (true on the empty needle). -/
def strContains (hay needle : String) : Bool :=
  containsChars hay.data needle.data

/-- ASCII lower-casing of one character, the relevant fragment of JS
`toLowerCase`. -/
def charToLower (c : Char) : Char :=
  if 'A' ≤ c ∧ c ≤ 'Z' then Char.ofNat (c.toNat + 32) else c

/-- JS `s.toLowerCase()` (ASCII fragment). -/
def jsToLower (s : String) : String :=
  String.mk (s.data.map charToLower)

/-- The whitespace characters stripped by JS `trim` (common fragment). -/
def isWsChar (c : Char) : Bool :=
  c = ' ' || c = '\t' || c = '\n' || c = '\r'

/-- JS `s.trim()`: strip whitespace from both ends. -/
def jsTrim (s : String) : String :=
  String.mk (((s.data.dropWhile isWsChar).reverse.dropWhile isWsChar).reverse)

/-- `validateForm`: both text fields must be non-empty after trimming. -/
def validateForm (startRaw endRaw : String) : Bool :=
  !(jsTrim startRaw == "") && !(jsTrim endRaw == "")

/-- `simulateTollFee`: `Math.floor(Math.random() * 5000) + 1000`, with the
random draw `Math.floor(Math.random() * 5000)` modelled as `rand % 5000`. -/
def simulateTollFee (rand : Nat) : Int :=
  ((rand % 5000 : Nat) : Int) + 1000

/-- The record literal built in `handleFormSubmit`: trimmed endpoints,
`route` interpolated from them, `fuel = parseInt(value) || 0`,
`total = tollFee + fuelCost`. -/
def mkFormRecord (id : Nat) (date : String) (startRaw endRaw : String)
    (tollFee : Int) (fuelRaw : String) (ts : Nat) : Record :=
  let startPoint := jsTrim startRaw
  let endPoint := jsTrim endRaw
  let fuelCost := (jsParseInt fuelRaw).getD 0
  { id := id
    date := date
    route := startPoint ++ " → " ++ endPoint
    startPoint := startPoint
    endPoint := endPoint
    toll := tollFee
    fuel := fuelCost
    total := tollFee + fuelCost
    timestamp := ts }

/-- `addRecord`: `records.unshift(record)` and `totalCost += record.total`.
The remaining statements (`updateUI`, `debouncedSave`, writing the toll
back into the form) only touch the DOM. -/
def addRecord (st : AppState) (record : Record) : AppState :=
  { st with records := record :: st.records, totalCost := st.totalCost + record.total }

/-- `handleFormSubmit` after `event.preventDefault()`: bail out when
`validateForm` fails, otherwise build the record and `addRecord` it. -/
def handleFormSubmit (st : AppState) (startRaw endRaw fuelRaw : String)
    (rand id ts : Nat) (date : String) : AppState :=
  if validateForm startRaw endRaw then
    addRecord st (mkFormRecord id date startRaw endRaw (simulateTollFee rand) fuelRaw ts)
  else st

/-- `handleSearch`: lower-cased, trimmed term; empty term copies the full
list, otherwise filter on `route.toLowerCase().includes(term)` or
`date.includes(term)`; then `currentPage = 1`. -/
def handleSearch (st : AppState) (searchInput : String) : AppState :=
  let searchTerm := jsTrim (jsToLower searchInput)
  let filtered :=
    if searchTerm = "" then st.records
    else st.records.filter fun record =>
      strContains (jsToLower record.route) searchTerm || strContains record.date searchTerm
  { st with filteredRecords := filtered, currentPage := 1 }

/-- The sort selector's value: the four directives plus the default
branch of the `switch` (comparator constantly 0). -/
inductive SortValue where
  | dateDesc
  | dateAsc
  | costDesc
  | costAsc
  | defaultOrder
deriving DecidableEq, Repr

/-- The comparator of `handleSort`, read as `compare(a,b) <= 0`:
`date-desc` is `b.timestamp - a.timestamp`, `date-asc` the reverse,
`cost-desc` is `b.total - a.total`, `cost-asc` the reverse, and the
default branch returns 0 (always `<= 0`). -/
def sortLe (v : SortValue) (a b : Record) : Bool :=
  match v with
  | SortValue.dateDesc => decide (b.timestamp ≤ a.timestamp)
  | SortValue.dateAsc => decide (a.timestamp ≤ b.timestamp)
  | SortValue.costDesc => decide (b.total ≤ a.total)
  | SortValue.costAsc => decide (a.total ≤ b.total)
  | SortValue.defaultOrder => true

/-- `sortLe` as a decidable relation, for the stable sort. -/
def sortR (v : SortValue) (a b : Record) : Prop := sortLe v a b = true

instance (v : SortValue) : DecidableRel (sortR v) := fun _ _ => instDecidableEqBool _ _

/-- `handleSort`: pick `filteredRecords` when non-empty, else `records`;
sort a copy with the comparator (`Array.prototype.sort` is stable, so it
is modelled by stable insertion sort); write the result back to whichever
list was picked; `currentPage = 1`. -/
def handleSort (st : AppState) (sortValue : SortValue) : AppState :=
  let records := if st.filteredRecords.length > 0 then st.filteredRecords else st.records
  let sortedRecords := List.insertionSort (sortR sortValue) records
  if st.filteredRecords.length > 0 then
    { st with filteredRecords := sortedRecords, currentPage := 1 }
  else
    { st with records := sortedRecords, currentPage := 1 }

/-- `getTotalPages`: `Math.ceil(totalRecords / recordsPerPage)` where
`totalRecords` falls back to the full list when the filtered list is
empty; for naturals the ceiling is `(n + 20 - 1) / 20`. -/
def getTotalPages (st : AppState) : Nat :=
  let totalRecords :=
    if st.filteredRecords.length > 0 then st.filteredRecords.length else st.records.length
  (totalRecords + recordsPerPage - 1) / recordsPerPage

/-- `changePage(direction)`: move only when the target stays within
`[1, totalPages]`, otherwise leave the state untouched. -/
def changePage (st : AppState) (direction : Int) : AppState :=
  let totalPages := getTotalPages st
  let newPage : Int := (st.currentPage : Int) + direction
  if 1 ≤ newPage ∧ newPage ≤ (totalPages : Int) then
    { st with currentPage := newPage.toNat }
  else st

/-- The page slice rendered by `updateRecordsList`: the same
filtered-or-full fallback, the explicit empty-list branch, then
`records.slice((currentPage-1)*recordsPerPage, currentPage*recordsPerPage)`. -/
def updateRecordsList (st : AppState) : List Record :=
  let records := if st.filteredRecords.length > 0 then st.filteredRecords else st.records
  if records.length = 0 then []
  else
    let startIndex := (st.currentPage - 1) * recordsPerPage
    (records.drop startIndex).take recordsPerPage

/-- A tabular row of the import/export bridge, one field per labelled
column of `handleExport` / `handleUpload`: date (날짜), start point
(출발지), end point (도착지), route (경로), toll (통행료), fuel (주유비),
total (총비용). -/
structure Row where
  colDate : Cell
  colStart : Cell
  colEnd : Cell
  colRoute : Cell
  colToll : Cell
  colFuel : Cell
  colTotal : Cell
deriving DecidableEq, Repr

/-- One element of `exportData` in `handleExport`: each record field
written under its column label. -/
def exportRow (record : Record) : Row :=
  { colDate := Cell.str record.date
    colStart := Cell.str record.startPoint
    colEnd := Cell.str record.endPoint
    colRoute := Cell.str record.route
    colToll := Cell.num record.toll
    colFuel := Cell.num record.fuel
    colTotal := Cell.num record.total }

/-- `handleExport`'s `exportData = this.records.map(...)`; the workbook
encoding itself is the external codec's job. -/
def handleExport (st : AppState) : List Row := st.records.map exportRow

/-- The sentinel used for a missing start or end point (알 수 없음,
"unknown"). -/
def unknownLabel : String := "알 수 없음"

/-- The record literal built for one uploaded row in `handleUpload`:
falsy date falls back to today's locale string (`defaultDate`), falsy
route falls back to the interpolation of the (defaulted) endpoints, toll
and fuel are `parseInt(cell) || 0`, total is recomputed from them (the
row's total column is never read), and `timestamp = Date.now() +
importedCount` (`now + idx`). -/
def importRow (id : Nat) (defaultDate : String) (now idx : Nat) (row : Row) : Record :=
  let toll := (parseIntCell row.colToll).getD 0
  let fuel := (parseIntCell row.colFuel).getD 0
  { id := id
    date := cellOrDefault row.colDate defaultDate
    route := cellOrDefault row.colRoute
      (cellOrDefault row.colStart unknownLabel ++ " → " ++ cellOrDefault row.colEnd unknownLabel)
    startPoint := cellOrDefault row.colStart unknownLabel
    endPoint := cellOrDefault row.colEnd unknownLabel
    toll := toll
    fuel := fuel
    total := toll + fuel
    timestamp := now + idx }

/-- One iteration of `jsonData.forEach` in `handleUpload`: build the
record, `records.push`, `totalCost += record.total`, `importedCount++`.
The accumulator's second component is `importedCount`. -/
def uploadStep (defaultDate : String) (now idBase : Nat)
    (acc : AppState × Nat) (row : Row) : AppState × Nat :=
  let record := importRow (idBase + acc.2) defaultDate now acc.2 row
  ({ acc.1 with
      records := acc.1.records ++ [record]
      totalCost := acc.1.totalCost + record.total },
    acc.2 + 1)

/-- `handleUpload` after the codec has produced `jsonData`: fold the
per-row step over the rows, starting from `importedCount = 0`.
`id = Date.now() + Math.random()` is abstracted as `idBase + index`. -/
def handleUpload (st : AppState) (defaultDate : String) (now idBase : Nat)
    (rows : List Row) : AppState :=
  (rows.foldl (uploadStep defaultDate now idBase) (st, 0)).1

/-- The list of records `handleUpload` appends, written directly as a
recursion over the rows with the running `importedCount` as `k`. -/
def importRows (defaultDate : String) (now idBase : Nat) :
    List Row → Nat → List Record
  | [], _ => []
  | row :: rest, k =>
      importRow (idBase + k) defaultDate now k row ::
        importRows defaultDate now idBase rest (k + 1)

/-- A JSON value, for the persistence adapter: what `JSON.parse` can
return. -/
inductive JsValue where
  | null
  | bool (b : Bool)
  | num (n : Int)
  | str (s : String)
  | arr (elems : List JsValue)
  | obj (fields : List (String × JsValue))

/-- JS truthiness of a parsed value (`NaN` does not arise here because
`JSON.parse` never produces it). -/
def jsTruthy : JsValue → Bool
  | JsValue.null => false
  | JsValue.bool b => b
  | JsValue.num n => decide (n ≠ 0)
  | JsValue.str s => decide (s ≠ "")
  | JsValue.arr _ => true
  | JsValue.obj _ => true

/-- JS property read `v[key]`: on `null` it throws (`Except.error`); on an
object it returns the field or `undefined` (`none`); on any other value
it returns `undefined`. -/
def jsGetField : JsValue → String → Except Unit (Option JsValue)
  | JsValue.null, _ => Except.error ()
  | JsValue.obj fields, key => Except.ok ((fields.find? fun p => p.1 = key).map Prod.snd)
  | _, _ => Except.ok none

/-- The two fields `loadFromLocalStorage` assigns, still at the dynamic
JS level: the code does no shape validation, so `records` and `totalCost`
can end up holding values of any type. -/
structure LoadedState where
  recordsVal : JsValue
  totalCostVal : JsValue

/-- The constructor values `this.records = []`, `this.totalCost = 0`,
which are also what the `catch` branch re-assigns. -/
def emptyLoaded : LoadedState :=
  { recordsVal := JsValue.arr [], totalCostVal := JsValue.num 0 }

/-- `loadFromLocalStorage`. The input abstracts
`localStorage.getItem` (`none` = key absent, so `if (saved)` fails and
the constructor values stay) composed with `JSON.parse`
(`some none` = the parse threw, caught by the `catch`). On a parsed
value, `data.records || []` and `data.totalCost || 0` are the falsy
fallbacks; a throw from the property read on `null` also lands in the
`catch`, which resets both fields. -/
def loadFromLocalStorage (saved : Option (Option JsValue)) : LoadedState :=
  match saved with
  | none => emptyLoaded
  | some none => emptyLoaded
  | some (some data) =>
      match jsGetField data "records", jsGetField data "totalCost" with
      | Except.ok recField, Except.ok totalField =>
          let recordsVal :=
            match recField with
            | some v => if jsTruthy v then v else JsValue.arr []
            | none => JsValue.arr []
          let totalCostVal :=
            match totalField with
            | some v => if jsTruthy v then v else JsValue.num 0
            | none => JsValue.num 0
          { recordsVal := recordsVal, totalCostVal := totalCostVal }
      | _, _ => emptyLoaded

/-! Concrete values used by the theorems below. -/

/-- A minimal record with index `i`, for building concrete collections. -/
def mkSimpleRecord (i : Nat) : Record :=
  { id := i, date := "", route := "", startPoint := "", endPoint := ""
    toll := 0, fuel := 0, total := 0, timestamp := i }

/-- A state holding 45 records, no active filter, page 1. -/
def st45 : AppState :=
  { records := (List.range 45).map mkSimpleRecord, filteredRecords := []
    totalCost := 0, currentPage := 1 }

/-- A record with total 0. -/
def rA : Record :=
  { id := 0, date := "", route := "", startPoint := "", endPoint := ""
    toll := 0, fuel := 0, total := 0, timestamp := 0 }

/-- A record with total 5, listed after `rA`. -/
def rB : Record := { rA with id := 1, total := 5 }

/-- Two records in stored order `[rA, rB]`, no active filter. -/
def st0 : AppState :=
  { records := [rA, rB], filteredRecords := [], totalCost := 5, currentPage := 1 }

/-- A state with a non-empty filtered list. -/
def stF : AppState :=
  { records := [rA], filteredRecords := [rB], totalCost := 5, currentPage := 1 }

/-- An uploaded row with a non-numeric toll cell and a negative fuel cell. -/
def rowNeg : Row :=
  { colDate := Cell.missing, colStart := Cell.missing, colEnd := Cell.missing
    colRoute := Cell.missing, colToll := Cell.str "x", colFuel := Cell.num (-100)
    colTotal := Cell.num 999 }

/-- An uploaded row with every cell absent. -/
def rowAllMissing : Row :=
  { colDate := Cell.missing, colStart := Cell.missing, colEnd := Cell.missing
    colRoute := Cell.missing, colToll := Cell.missing, colFuel := Cell.missing
    colTotal := Cell.missing }

/-- A stored payload that parses fine but has the wrong shape: `records`
is the number 7, not an array. -/
def badPayload : JsValue :=
  JsValue.obj [("records", JsValue.num 7), ("totalCost", JsValue.num 5)]

/-- A one-record state whose route matches no search term like "zz". -/
def stRouteOnly : AppState :=
  { records := [{ id := 0, date := "2024", route := "seoul → busan", startPoint := "seoul"
                  endPoint := "busan", toll := 1, fuel := 2, total := 3, timestamp := 0 }]
    filteredRecords := [], totalCost := 3, currentPage := 1 }

/-- The fields of a record other than `id` and `timestamp`: date, start,
end, route, toll, fuel, total. -/
def recordCore (r : Record) : String × String × String × String × Int × Int × Int :=
  (r.date, r.startPoint, r.endPoint, r.route, r.toll, r.fuel, r.total)

/-- The data-model invariants of a stored record: the display strings are
non-empty and the total is the sum of toll and fuel. Every record the
program itself creates satisfies this. -/
def wellFormedRecord (r : Record) : Prop :=
  r.date ≠ "" ∧ r.startPoint ≠ "" ∧ r.endPoint ≠ "" ∧ r.route ≠ "" ∧
    r.total = r.toll + r.fuel

instance (r : Record) : Decidable (wellFormedRecord r) := by
  unfold wellFormedRecord; infer_instance

/-! Helper lemmas shared by the claim theorems. -/

/-- Unrolling the `forEach` fold of `handleUpload`: it appends
`importRows` and adds their totals, leaving every other field alone. -/
theorem uploadStep_foldl_spec (d : String) (now idBase : Nat) (rows : List Row) :
    ∀ (st : AppState) (k : Nat),
      (rows.foldl (uploadStep d now idBase) (st, k)).1 =
        { st with
            records := st.records ++ importRows d now idBase rows k
            totalCost :=
              st.totalCost + ((importRows d now idBase rows k).map Record.total).sum } := by
  induction rows with
  | nil => intro st k; simp [importRows]
  | cons row rest ih =>
      intro st k
      rw [List.foldl_cons]
      show (rest.foldl (uploadStep d now idBase)
        ({ st with
            records := st.records ++ [importRow (idBase + k) d now k row]
            totalCost := st.totalCost + (importRow (idBase + k) d now k row).total },
          k + 1)).1 = _
      rw [ih]
      simp [importRows, List.append_assoc, add_assoc]

/-- `handleUpload` in closed form. -/
theorem handleUpload_spec (st : AppState) (d : String) (now idBase : Nat) (rows : List Row) :
    handleUpload st d now idBase rows =
      { st with
          records := st.records ++ importRows d now idBase rows 0
          totalCost :=
            st.totalCost + ((importRows d now idBase rows 0).map Record.total).sum } :=
  uploadStep_foldl_spec d now idBase rows st 0

/-- Every uploaded row yields exactly one record. -/
theorem importRows_length (d : String) (now idBase : Nat) :
    ∀ (rows : List Row) (k : Nat), (importRows d now idBase rows k).length = rows.length
  | [], _ => rfl
  | _ :: rest, k => by
      simp [importRows, importRows_length d now idBase rest (k + 1)]

/-- Importing the exported row of a well-formed record reproduces every
field but `id` and `timestamp`. -/
theorem roundtrip_core (r : Record) (hdate : r.date ≠ "") (hs : r.startPoint ≠ "")
    (he : r.endPoint ≠ "") (hr : r.route ≠ "") (ht : r.total = r.toll + r.fuel)
    (id : Nat) (d : String) (now k : Nat) :
    recordCore (importRow id d now k (exportRow r)) = recordCore r := by
  simp [recordCore, importRow, exportRow, cellOrDefault, parseIntCell,
    hdate, hs, he, hr, ht]

/-- `roundtrip_core` lifted to a list of records. -/
theorem importRows_export_core (d : String) (now idBase : Nat) :
    ∀ (l : List Record) (k : Nat), (∀ r ∈ l, wellFormedRecord r) →
      (importRows d now idBase (l.map exportRow) k).map recordCore = l.map recordCore
  | [], _, _ => rfl
  | r :: rest, k, h => by
      have hw := h r (List.mem_cons_self _ _)
      simp only [List.map_cons, importRows]
      rw [importRows_export_core d now idBase rest (k + 1)
        (fun x hx => h x (List.mem_cons_of_mem _ hx))]
      rw [roundtrip_core r hw.1 hw.2.1 hw.2.2.1 hw.2.2.2.1 hw.2.2.2.2]

/-- With no active filter and page 1, the rendered slice is the first
page of the full collection. -/
theorem updateRecordsList_no_filter (st : AppState) (h : st.filteredRecords = [])
    (h1 : st.currentPage = 1) :
    updateRecordsList st = st.records.take recordsPerPage := by
  rcases hrec : st.records with _ | ⟨a, l⟩ <;>
    simp [updateRecordsList, h, h1, hrec]

/-- With no active filter, the page count is computed from the full
collection. -/
theorem getTotalPages_no_filter (st : AppState) (h : st.filteredRecords = []) :
    getTotalPages st = (st.records.length + recordsPerPage - 1) / recordsPerPage := by
  simp [getTotalPages, h]

/-! The claim theorems. -/

/-- C1: for every valid add input (both endpoints non-empty after
trimming), `handleFormSubmit` prepends exactly the record built by the
form, and that record satisfies `total = toll + fuel` and
`route = origin ++ " → " ++ destination` (on the trimmed endpoints). -/
theorem c1_form_record_total_and_route (st : AppState) (startRaw endRaw fuelRaw : String)
    (rand id ts : Nat) (date : String) (h : validateForm startRaw endRaw = true) :
    (handleFormSubmit st startRaw endRaw fuelRaw rand id ts date).records =
      mkFormRecord id date startRaw endRaw (simulateTollFee rand) fuelRaw ts :: st.records ∧
    (mkFormRecord id date startRaw endRaw (simulateTollFee rand) fuelRaw ts).total =
      (mkFormRecord id date startRaw endRaw (simulateTollFee rand) fuelRaw ts).toll +
        (mkFormRecord id date startRaw endRaw (simulateTollFee rand) fuelRaw ts).fuel ∧
    (mkFormRecord id date startRaw endRaw (simulateTollFee rand) fuelRaw ts).route =
      jsTrim startRaw ++ " → " ++ jsTrim endRaw := by
  refine ⟨?_, rfl, rfl⟩
  simp [handleFormSubmit, h, addRecord]

/-- Witness for C1 at a concrete valid submission. -/
theorem c1_witness :
    (handleFormSubmit initialState "seoul" "busan" "300" 0 1 2 "d").records =
      mkFormRecord 1 "d" "seoul" "busan" (simulateTollFee 0) "300" 2 ::
        initialState.records ∧
    (mkFormRecord 1 "d" "seoul" "busan" (simulateTollFee 0) "300" 2).total =
      (mkFormRecord 1 "d" "seoul" "busan" (simulateTollFee 0) "300" 2).toll +
        (mkFormRecord 1 "d" "seoul" "busan" (simulateTollFee 0) "300" 2).fuel ∧
    (mkFormRecord 1 "d" "seoul" "busan" (simulateTollFee 0) "300" 2).route =
      jsTrim "seoul" ++ " → " ++ jsTrim "busan" :=
  c1_form_record_total_and_route initialState "seoul" "busan" "300" 0 1 2 "d" (by decide)

/-- C2 (amended): `getTotalPages` is the exact ceiling of
`n / recordsPerPage`, where `n` falls back to the full collection's size
when the filtered list is empty; when both lists are empty the page count
is 0 — not 1 — and the visible page is empty. -/
theorem c2_total_pages_ceiling (st : AppState) :
    ((if st.filteredRecords.length > 0 then st.filteredRecords.length
        else st.records.length) ≤ recordsPerPage * getTotalPages st ∧
      recordsPerPage * getTotalPages st <
        (if st.filteredRecords.length > 0 then st.filteredRecords.length
          else st.records.length) + recordsPerPage) ∧
    (st.records = [] → st.filteredRecords = [] →
      getTotalPages st = 0 ∧ updateRecordsList st = []) := by
  constructor
  · have hg : getTotalPages st =
        ((if st.filteredRecords.length > 0 then st.filteredRecords.length
          else st.records.length) + recordsPerPage - 1) / recordsPerPage := rfl
    have h20 : recordsPerPage = 20 := rfl
    rw [hg, h20]
    omega
  · intro h1 h2
    refine ⟨?_, ?_⟩
    · simp [getTotalPages, h1, h2, recordsPerPage]
    · simp [updateRecordsList, h1, h2]

/-- Counterexample for C2 as stated: on the empty collection with no
filter the page count is 0, not at least 1. -/
theorem c2_counterexample :
    getTotalPages initialState = 0 ∧ ¬ 1 ≤ getTotalPages initialState := by decide

/-- Witness for C2 (amended) at the empty state. -/
theorem c2_witness :
    getTotalPages initialState = 0 ∧ updateRecordsList initialState = [] :=
  (c2_total_pages_ceiling initialState).2 rfl rfl

/-- C3 (amended): adding a record and importing a batch leave the current
page unchanged (they do not reset it); search and sort always reset it
to 1. -/
theorem c3_page_reset_behavior (st : AppState) (r : Record) (d : String)
    (now idBase : Nat) (rows : List Row) (q : String) (v : SortValue) :
    (addRecord st r).currentPage = st.currentPage ∧
    (handleUpload st d now idBase rows).currentPage = st.currentPage ∧
    (handleSearch st q).currentPage = 1 ∧
    (handleSort st v).currentPage = 1 := by
  refine ⟨rfl, ?_, rfl, ?_⟩
  · rw [handleUpload_spec]
  · unfold handleSort
    split <;> rfl

/-- Counterexample for C3 as stated: after paginating the 45-record state
to page 2, adding a record leaves the current page at 2, not 1. -/
theorem c3_counterexample :
    (changePage st45 1).currentPage = 2 ∧
    (addRecord (changePage st45 1) (mkSimpleRecord 100)).currentPage = 2 ∧
    (addRecord (changePage st45 1) (mkSimpleRecord 100)).currentPage ≠ 1 := by decide

/-- C4: exporting a collection of well-formed records and importing the
resulting rows reproduces every record field except `id` and
`timestamp`. -/
theorem c4_export_import_roundtrip (st : AppState) (d : String) (now idBase : Nat)
    (h : ∀ r ∈ st.records, wellFormedRecord r) :
    (handleUpload initialState d now idBase (handleExport st)).records.map recordCore =
      st.records.map recordCore := by
  rw [handleUpload_spec]
  show (([] : List Record) ++
      importRows d now idBase (st.records.map exportRow) 0).map recordCore = _
  rw [List.nil_append]
  exact importRows_export_core d now idBase st.records 0 h

/-- Witness for C4 on a concrete one-record collection. -/
theorem c4_witness :
    (handleUpload initialState "d" 5 9 (handleExport stRouteOnly)).records.map recordCore =
      stRouteOnly.records.map recordCore :=
  c4_export_import_roundtrip stRouteOnly "d" 5 9 (by decide)

/-- C5: every imported row yields a record whose total is recomputed as
toll + fuel while the row's total column is ignored entirely; a missing
start or end cell becomes the sentinel label, and a missing or
non-numeric toll or fuel cell becomes 0; and a batch of n rows yields
exactly n records. -/
theorem c5_import_row_defaults (id : Nat) (d : String) (now i : Nat) (row : Row) :
    (importRow id d now i row).total =
      (importRow id d now i row).toll + (importRow id d now i row).fuel ∧
    (∀ c, importRow id d now i { row with colTotal := c } = importRow id d now i row) ∧
    (row.colStart = Cell.missing → (importRow id d now i row).startPoint = unknownLabel) ∧
    (row.colEnd = Cell.missing → (importRow id d now i row).endPoint = unknownLabel) ∧
    (parseIntCell row.colToll = none → (importRow id d now i row).toll = 0) ∧
    (parseIntCell row.colFuel = none → (importRow id d now i row).fuel = 0) ∧
    (∀ rows k, (importRows d now id rows k).length = rows.length) := by
  refine ⟨rfl, fun c => rfl, fun h => ?_, fun h => ?_, fun h => ?_, fun h => ?_,
    importRows_length d now id⟩ <;>
    simp [importRow, h, cellOrDefault]

/-- Witness for C5 on the all-missing row and a non-numeric toll cell. -/
theorem c5_witness :
    (importRow 1 "d" 0 0 rowAllMissing).startPoint = unknownLabel ∧
    (importRow 1 "d" 0 0 rowAllMissing).endPoint = unknownLabel ∧
    (importRow 1 "d" 0 0 rowAllMissing).toll = 0 ∧
    (importRow 1 "d" 0 0 rowAllMissing).fuel = 0 ∧
    importRow 1 "d" 0 0 { rowAllMissing with colTotal := Cell.num 777 } =
      importRow 1 "d" 0 0 rowAllMissing := by
  obtain ⟨-, h2, h3, h4, h5, h6, -⟩ := c5_import_row_defaults 1 "d" 0 0 rowAllMissing
  exact ⟨h3 rfl, h4 rfl, h5 rfl, h6 rfl, h2 (Cell.num 777)⟩

/-- C6 (amended): an absent key, an unparsable payload, or a payload
parsing to `null` all yield the empty collection and total 0 without
throwing; but a payload parsing to an object is not shape-checked: truthy
`records` / `totalCost` fields of any type are taken as-is. -/
theorem c6_load_fallbacks :
    loadFromLocalStorage none = emptyLoaded ∧
    loadFromLocalStorage (some none) = emptyLoaded ∧
    loadFromLocalStorage (some (some JsValue.null)) = emptyLoaded ∧
    ∀ rv tv, jsTruthy rv = true → jsTruthy tv = true →
      loadFromLocalStorage (some (some (JsValue.obj
          [("records", rv), ("totalCost", tv)]))) =
        { recordsVal := rv, totalCostVal := tv } := by
  refine ⟨rfl, rfl, rfl, fun rv tv h1 h2 => ?_⟩
  simp [loadFromLocalStorage, jsGetField, List.find?, h1, h2]

/-- Counterexample for C6 as stated: the invalid-shape payload
`{records: 7, totalCost: 5}` is loaded as-is, so the collection field is
the number 7, not the empty array. -/
theorem c6_counterexample :
    (loadFromLocalStorage (some (some badPayload))).recordsVal = JsValue.num 7 ∧
    JsValue.num 7 ≠ JsValue.arr [] := by
  refine ⟨rfl, fun h => ?_⟩
  cases h

/-- Witness for C6 (amended) at a concrete truthy object payload. -/
theorem c6_witness :
    loadFromLocalStorage (some (some (JsValue.obj
        [("records", JsValue.arr []), ("totalCost", JsValue.num 3)]))) =
      { recordsVal := JsValue.arr [], totalCostVal := JsValue.num 3 } :=
  c6_load_fallbacks.2.2.2 (JsValue.arr []) (JsValue.num 3) rfl rfl

/-- C7 (amended): search and pagination leave the stored collection and
the aggregate total untouched; sort preserves the aggregate total and the
multiset of records, and leaves the stored list itself unchanged whenever
a filter is active — but with no active filter it reorders the stored
list in place. -/
theorem c7_view_ops_frame (st : AppState) (q : String) (dir : Int) (v : SortValue) :
    (handleSearch st q).records = st.records ∧
    (handleSearch st q).totalCost = st.totalCost ∧
    (changePage st dir).records = st.records ∧
    (changePage st dir).totalCost = st.totalCost ∧
    (handleSort st v).totalCost = st.totalCost ∧
    List.Perm (handleSort st v).records st.records ∧
    (st.filteredRecords.length > 0 → (handleSort st v).records = st.records) := by
  refine ⟨rfl, rfl, ?_, ?_, ?_, ?_, ?_⟩
  · simp only [changePage]; split <;> rfl
  · simp only [changePage]; split <;> rfl
  · unfold handleSort; split <;> rfl
  · unfold handleSort
    split
    · exact List.Perm.refl _
    · exact List.perm_insertionSort _ _
  · intro h
    unfold handleSort
    rw [if_pos h]

/-- Counterexample for C7 as stated: with no active filter, sorting by
cost descending reorders the stored collection itself. -/
theorem c7_counterexample :
    (handleSort st0 SortValue.costDesc).records = [rB, rA] ∧
    (handleSort st0 SortValue.costDesc).records ≠ st0.records := by decide

/-- Witness for C7 (amended): with an active filter, sort leaves the
stored list unchanged. -/
theorem c7_witness :
    (handleSort stF SortValue.costAsc).records = stF.records ∧
    (handleSearch stF "x").totalCost = stF.totalCost :=
  ⟨(c7_view_ops_frame stF "x" 0 SortValue.costAsc).2.2.2.2.2.2 (by decide),
    (c7_view_ops_frame stF "x" 0 SortValue.costAsc).2.1⟩

/-- C8 (amended): the simulated toll lies in [1000, 5999], and a
non-numeric or missing toll/fuel input coerces to 0 on both the form and
the import path; but a negative numeric input is kept as-is, so fuel (and
imported toll) can be negative. -/
theorem c8_coercion_to_zero (rand : Nat) (s e f dt : String) (id ts : Nat)
    (row : Row) (rid : Nat) (d : String) (now i : Nat) :
    1000 ≤ simulateTollFee rand ∧ simulateTollFee rand ≤ 5999 ∧
    (jsParseInt f = none →
      (mkFormRecord id dt s e (simulateTollFee rand) f ts).fuel = 0) ∧
    (parseIntCell row.colToll = none → (importRow rid d now i row).toll = 0) ∧
    (parseIntCell row.colFuel = none → (importRow rid d now i row).fuel = 0) := by
  have hm : rand % 5000 < 5000 := Nat.mod_lt _ (by norm_num)
  refine ⟨?_, ?_, fun h => ?_, fun h => ?_, fun h => ?_⟩
  · simp only [simulateTollFee]
    omega
  · simp only [simulateTollFee]
    omega
  · simp [mkFormRecord, h]
  · simp [importRow, h]
  · simp [importRow, h]

/-- Counterexample for C8 as stated: importing a row whose fuel cell is
the number −100 yields a record with fuel = −100 < 0. -/
theorem c8_counterexample :
    (importRow 0 "d" 0 0 rowNeg).fuel = -100 ∧
    ¬ 0 ≤ (importRow 0 "d" 0 0 rowNeg).fuel ∧
    (importRow 0 "d" 0 0 rowNeg).toll = 0 := by decide

/-- Witness for C8 (amended) at concrete inputs. -/
theorem c8_witness :
    1000 ≤ simulateTollFee 0 ∧
    (mkFormRecord 1 "d" "a" "b" (simulateTollFee 0) "abc" 2).fuel = 0 ∧
    (importRow 1 "d" 0 0 rowAllMissing).toll = 0 := by
  obtain ⟨h1, h2, h3, h4, h5⟩ :=
    c8_coercion_to_zero 0 "a" "b" "abc" "d" 1 2 rowAllMissing 1 "d" 0 0
  exact ⟨h1, h3 (by decide), h4 rfl⟩

/-- C9: with 45 records and page size 20 the page count is 3, page 3
shows exactly 5 records, and a pagination request past page 3 or below
page 1 is rejected with the state (hence the current page) unchanged. -/
theorem c9_pagination_bounds :
    getTotalPages st45 = 3 ∧
    (updateRecordsList { st45 with currentPage := 3 }).length = 5 ∧
    changePage { st45 with currentPage := 3 } 1 = { st45 with currentPage := 3 } ∧
    changePage st45 (-1) = st45 := by decide

/-- C10: when a search leaves the filtered list empty, both the rendered
page and the page count are computed from the full collection: page 1 of
all records is shown and the page count covers all records. -/
theorem c10_empty_filter_falls_back (st : AppState) (q : String)
    (h : (handleSearch st q).filteredRecords = []) :
    updateRecordsList (handleSearch st q) = st.records.take recordsPerPage ∧
    getTotalPages (handleSearch st q) =
      (st.records.length + recordsPerPage - 1) / recordsPerPage :=
  ⟨updateRecordsList_no_filter _ h rfl, getTotalPages_no_filter _ h⟩

/-- Witness for C10: the term "zz" matches nothing, yet the single record
is still shown and counted. -/
theorem c10_witness :
    updateRecordsList (handleSearch stRouteOnly "zz") =
      stRouteOnly.records.take recordsPerPage ∧
    getTotalPages (handleSearch stRouteOnly "zz") =
      (stRouteOnly.records.length + recordsPerPage - 1) / recordsPerPage :=
  c10_empty_filter_falls_back stRouteOnly "zz" (by decide)

end CarExpense
